import Mathlib

/-!
Verification of the algokit-utils client core: the signer registry
(`AccountManager` in `account_manager.py`), the suggested-parameters cache and
transaction dispatch facade (`AlgorandClient` in `algorand-client.py`).

Modelling conventions:
* Python `dict` keyed by address strings is an association list with
  last-write-wins insertion (`dictInsert`) and first-match lookup (`dictGet`);
  since `dictInsert` keeps keys unique this matches Python dict semantics.
* `TransactionSigner` objects carry no `__bool__`/`__len__`, so they are always
  truthy in Python; the Python idiom `x or y` over such optional objects is
  therefore `py_or_option`, and `if not signer` tests for `none`.
* Raising an exception is returning `Except.error`; the error message is the
  message built by the source.
* `time.time()` is an abstract instant passed to each call; instants and the
  cache timeout are integers (`Int`), added exactly as the source adds them
  (no unit conversion appears in the source).
* `SuggestedParams.copy()` returns an equal, independent value; on immutable
  Lean values it is the identity.
-/

set_option autoImplicit false

universe u v w

/-- Lookup in a Python dict modelled as an association list: first match wins. -/
def dictGet {α : Type u} (k : String) : List (String × α) → Option α
  | [] => none
  | (k', v) :: rest => if k' = k then some v else dictGet k rest

/-- Insertion in a Python dict modelled as an association list: a later binding
for the same key overwrites the earlier one, other bindings keep their place. -/
def dictInsert {α : Type u} (k : String) (v : α) : List (String × α) → List (String × α)
  | [] => [(k, v)]
  | (k', v') :: rest => if k' = k then (k, v) :: rest else (k', v') :: dictInsert k v rest

/-- Python `a or b` over two optional always-truthy objects: the first operand
when it is not `None`, otherwise the second. -/
def py_or_option {α : Type u} (a b : Option α) : Option α :=
  match a with
  | some x => some x
  | none => b

/-- The pair returned by every account-provisioning operation
(`AddrAndSigner` dataclass, `account_manager.py` lines 14-17). -/
structure AddrAndSigner (S : Type u) where
  addr : String
  signer : S

/-- State of `AccountManager` (`account_manager.py` lines 22-30): the registry
dict `_accounts` and the optional `_default_signer`.  The signer type is an
opaque parameter `S`; the handle `_client_manager` carries no registry state
and the external services it reaches are passed to each operation explicitly. -/
structure AccountManager (S : Type u) where
  accounts : List (String × S)
  defaultSigner : Option S

/-- A fresh `AccountManager` as built by `__init__`: empty dict, no default. -/
def AccountManager.init {S : Type u} : AccountManager S :=
  { accounts := [], defaultSigner := none }

/-- `AccountManager.set_default_signer` (lines 32-40): replaces the fallback
signer.  The source returns `self` for chaining; the embedding returns the
updated state. -/
def AccountManager.set_default_signer {S : Type u} (m : AccountManager S) (signer : S) :
    AccountManager S :=
  { m with defaultSigner := some signer }

/-- `AccountManager.set_signer` (lines 42-51): `self._accounts[sender] = signer`. -/
def AccountManager.set_signer {S : Type u} (m : AccountManager S) (sender : String) (signer : S) :
    AccountManager S :=
  { m with accounts := dictInsert sender signer m.accounts }

/-- `AccountManager.get_signer` (lines 53-65):
`signer = self._accounts.get(sender, None) or self._default_signer`, then
`if not signer: raise ValueError(...)`.  The method only reads `self`, so the
embedding is a pure function of the state. -/
def AccountManager.get_signer {S : Type u} (m : AccountManager S) (sender : String) :
    Except String S :=
  match py_or_option (dictGet sender m.accounts) m.defaultSigner with
  | some s => Except.ok s
  | none => Except.error ("No signer found for address " ++ sender)

theorem dictGet_dictInsert_self {α : Type u} (k : String) (v : α) (l : List (String × α)) :
    dictGet k (dictInsert k v l) = some v := by
  induction l with
  | nil => simp [dictGet, dictInsert]
  | cons hd tl ih =>
      obtain ⟨k', v'⟩ := hd
      by_cases h : k' = k
      · simp [dictGet, dictInsert, h]
      · simp [dictGet, dictInsert, h, ih]

theorem get_signer_set_signer {S : Type u} (m : AccountManager S) (a : String) (s : S) :
    (m.set_signer a s).get_signer a = Except.ok s := by
  simp [AccountManager.get_signer, AccountManager.set_signer, dictGet_dictInsert_self,
    py_or_option]

/-- C1: `get_signer(A)` raises (`SignerNotFoundError` in the spec's naming, a
`ValueError` in the source) exactly when address `A` has no entry in the
registry dict and no default signer is set.  `get_signer` only reads the state
(the embedding is a pure function of `m`), so in the failing case the registry
is unchanged. -/
theorem C1_get_signer_error_iff {S : Type u} (m : AccountManager S) (a : String) :
    (∃ e, m.get_signer a = Except.error e) ↔
      dictGet a m.accounts = none ∧ m.defaultSigner = none := by
  cases h1 : dictGet a m.accounts with
  | none =>
      cases h2 : m.defaultSigner with
      | none => simp [AccountManager.get_signer, py_or_option, h1, h2]
      | some d => simp [AccountManager.get_signer, py_or_option, h1, h2]
  | some s => simp [AccountManager.get_signer, py_or_option, h1]

/-- C3: after `set_signer(A, S)` the registered signer wins: `get_signer(A)`
returns `S` whatever default signer the state `m` already holds, and still
does so after a subsequent `set_default_signer(D)`; and on any state `m2`
where `A` has no entry and the default signer is `D`, `get_signer(A)`
returns `D`. -/
theorem C3_register_then_resolve {S : Type u} (m m2 : AccountManager S) (a : String) (s d : S)
    (h1 : dictGet a m2.accounts = none) (h2 : m2.defaultSigner = some d) :
    (m.set_signer a s).get_signer a = Except.ok s ∧
    ((m.set_signer a s).set_default_signer d).get_signer a = Except.ok s ∧
    m2.get_signer a = Except.ok d := by
  refine ⟨get_signer_set_signer m a s, ?_, ?_⟩
  · simp [AccountManager.get_signer, AccountManager.set_default_signer,
      AccountManager.set_signer, dictGet_dictInsert_self, py_or_option]
  · simp [AccountManager.get_signer, py_or_option, h1, h2]

/-- C3 witness: a concrete run with signers as naturals, address `"A"`
registered to signer `1`, against a second state holding only default
signer `2`. -/
theorem C3_register_then_resolve_witness :
    (dictGet "A" (AccountManager.init.set_default_signer (2 : Nat)).accounts = none ∧
      (AccountManager.init.set_default_signer (2 : Nat)).defaultSigner = some 2) ∧
    ((AccountManager.init.set_signer "A" (1 : Nat)).get_signer "A" = Except.ok 1 ∧
    ((AccountManager.init.set_signer "A" (1 : Nat)).set_default_signer 2).get_signer "A" =
      Except.ok 1 ∧
    (AccountManager.init.set_default_signer (2 : Nat)).get_signer "A" = Except.ok 2) :=
  ⟨⟨rfl, rfl⟩,
    C3_register_then_resolve AccountManager.init
      (AccountManager.init.set_default_signer 2) "A" 1 2 rfl rfl⟩

/-- State of `AlgorandClient` (`algorand-client.py` lines 50-58): the account
manager plus the suggested-params cache fields `_cached_suggested_params`,
`_cached_suggested_params_expiry`, `_cached_suggested_params_timeout` and
`_default_validity_window`.  `P` is the opaque type of a `SuggestedParams`
snapshot. -/
structure AlgorandClient (S : Type u) (P : Type v) where
  account_manager : AccountManager S
  cached_suggested_params : Option P
  cached_suggested_params_expiry : Option Int
  cached_suggested_params_timeout : Int
  default_validity_window : Int

/-- A fresh `AlgorandClient` as built by `__init__`: empty cache, no expiry,
timeout constant `3_000`, validity window `10`. -/
def AlgorandClient.init {S : Type u} {P : Type v} : AlgorandClient S P :=
  { account_manager := AccountManager.init
    cached_suggested_params := none
    cached_suggested_params_expiry := none
    cached_suggested_params_timeout := 3000
    default_validity_window := 10 }

/-- `AlgorandClient.get_suggested_params` (lines 119-129).  `now` is the value
of `time.time()` during the call and `fresh` the snapshot the external
`algod.suggested_params()` would return.  The result carries the returned
snapshot, the post-state, and whether the external fetch happened (`true` for
exactly one fetch, `false` for none).  A `SuggestedParams` object is truthy and
`.copy()` is the identity on immutable values. -/
def AlgorandClient.get_suggested_params {S : Type u} {P : Type v} (c : AlgorandClient S P)
    (now : Int) (fresh : P) : P × AlgorandClient S P × Bool :=
  match c.cached_suggested_params with
  | some v =>
      match c.cached_suggested_params_expiry with
      | none => (v, c, false)
      | some e =>
          if now < e then (v, c, false)
          else (fresh,
            { c with
              cached_suggested_params := some fresh
              cached_suggested_params_expiry := some (now + c.cached_suggested_params_timeout) },
            true)
  | none => (fresh,
      { c with
        cached_suggested_params := some fresh
        cached_suggested_params_expiry := some (now + c.cached_suggested_params_timeout) },
      true)

/-- `AlgorandClient.set_suggested_params` (lines 97-107):
`self._cached_suggested_params_expiry = until or time.time() + self._cached_suggested_params_timeout`.
Python `or` takes the right operand when `until` is falsy, i.e. `None` or `0`. -/
def AlgorandClient.set_suggested_params {S : Type u} {P : Type v} (c : AlgorandClient S P)
    (suggested_params : P) (until_ : Option Int) (now : Int) : AlgorandClient S P :=
  { c with
    cached_suggested_params := some suggested_params
    cached_suggested_params_expiry := some (match until_ with
      | some u => if u = 0 then now + c.cached_suggested_params_timeout else u
      | none => now + c.cached_suggested_params_timeout) }

/-- `AlgorandClient.set_suggested_params_timeout` (lines 109-117). -/
def AlgorandClient.set_suggested_params_timeout {S : Type u} {P : Type v}
    (c : AlgorandClient S P) (timeout : Int) : AlgorandClient S P :=
  { c with cached_suggested_params_timeout := timeout }

/-- C2: starting from a state with nothing cached, a first
`get_suggested_params` call fetches once and a second call made strictly
before the stored expiry (`first time + timeout`) returns an equal snapshot
from the cache; in total exactly one external fetch happens. -/
theorem C2_two_calls_one_fetch {S : Type u} {P : Type v} (c : AlgorandClient S P)
    (t1 t2 : Int) (f1 f2 : P)
    (hempty : c.cached_suggested_params = none)
    (hlt : t2 < t1 + c.cached_suggested_params_timeout) :
    (c.get_suggested_params t1 f1).1 =
      ((c.get_suggested_params t1 f1).2.1.get_suggested_params t2 f2).1 ∧
    (c.get_suggested_params t1 f1).2.2 = true ∧
    ((c.get_suggested_params t1 f1).2.1.get_suggested_params t2 f2).2.2 = false := by
  simp [AlgorandClient.get_suggested_params, hempty, hlt]

/-- C2 witness: the fresh client, first call at time `0`, second at time `5`,
fetched snapshots `7` and `9`. -/
theorem C2_two_calls_one_fetch_witness :
    ((AlgorandClient.init : AlgorandClient Unit Int).cached_suggested_params = none ∧
      (5 : Int) < 0 + (AlgorandClient.init : AlgorandClient Unit Int).cached_suggested_params_timeout) ∧
    (((AlgorandClient.init : AlgorandClient Unit Int).get_suggested_params 0 7).1 =
      (((AlgorandClient.init : AlgorandClient Unit Int).get_suggested_params 0 7).2.1.get_suggested_params 5 9).1 ∧
    ((AlgorandClient.init : AlgorandClient Unit Int).get_suggested_params 0 7).2.2 = true ∧
    (((AlgorandClient.init : AlgorandClient Unit Int).get_suggested_params 0 7).2.1.get_suggested_params 5 9).2.2 = false) :=
  ⟨⟨rfl, by decide⟩, C2_two_calls_one_fetch AlgorandClient.init 0 5 7 9 rfl (by decide)⟩

/-- C4 counterexample: the claim quantifies over every timestamp `T`, but for
`T = 0` Python's `until or time.time() + timeout` treats the explicit expiry
as falsy and stores `now + timeout` instead.  Concretely, after
`set_suggested_params 42 (until 0)` at time `5` on a fresh client, the first
`get_suggested_params` call at time `10` (which is at/after `T = 0`) serves
the cache and performs no fresh fetch, while the claim requires exactly one
fetch there. -/
theorem C4_counterexample :
    (((AlgorandClient.init : AlgorandClient Unit Int).set_suggested_params 42 (some 0)
        5).get_suggested_params 10 99).2.2 = false := by
  decide

/-- C4 amended: restricted to a truthy (nonzero) timestamp `T`, seeding the
cache with `set_suggested_params P (until T)` stores expiry `T`; every
`get_suggested_params` call strictly before `T` returns `P` with no external
fetch and leaves the state unchanged (so this holds for every such call, not
just the first); any call at or after `T` performs its one fresh fetch; and
when `until` is omitted the expiry is `now + timeout`. -/
theorem C4_amended_seed_until {S : Type u} {P : Type v} (c : AlgorandClient S P) (p f f' : P)
    (T now t t' : Int) (hT : T ≠ 0) (ht : t < T) (ht' : T ≤ t') :
    ((c.set_suggested_params p (some T) now).cached_suggested_params_expiry = some T) ∧
    ((c.set_suggested_params p (some T) now).get_suggested_params t f =
      (p, c.set_suggested_params p (some T) now, false)) ∧
    (((c.set_suggested_params p (some T) now).get_suggested_params t' f').2.2 = true) ∧
    ((c.set_suggested_params p none now).cached_suggested_params_expiry =
      some (now + c.cached_suggested_params_timeout)) := by
  refine ⟨by simp [AlgorandClient.set_suggested_params, hT], ?_, ?_, by
    simp [AlgorandClient.set_suggested_params]⟩
  · simp [AlgorandClient.get_suggested_params, AlgorandClient.set_suggested_params, hT, ht]
  · simp [AlgorandClient.get_suggested_params, AlgorandClient.set_suggested_params, hT,
      not_lt.mpr ht']

/-- C4 witness: fresh client, snapshot `1`, expiry `T = 100` seeded at time
`5`; the call at time `50` hits the cache, the call at time `100` fetches. -/
theorem C4_amended_seed_until_witness :
    ((100 : Int) ≠ 0 ∧ (50 : Int) < 100 ∧ (100 : Int) ≤ 100) ∧
    ((((AlgorandClient.init : AlgorandClient Unit Int).set_suggested_params 1 (some 100)
        5).cached_suggested_params_expiry = some 100) ∧
    (((AlgorandClient.init : AlgorandClient Unit Int).set_suggested_params 1 (some 100)
        5).get_suggested_params 50 2 =
      (1, (AlgorandClient.init : AlgorandClient Unit Int).set_suggested_params 1 (some 100) 5,
        false)) ∧
    ((((AlgorandClient.init : AlgorandClient Unit Int).set_suggested_params 1 (some 100)
        5).get_suggested_params 100 3).2.2 = true) ∧
    (((AlgorandClient.init : AlgorandClient Unit Int).set_suggested_params 1 none
        5).cached_suggested_params_expiry =
      some (5 + (AlgorandClient.init : AlgorandClient Unit Int).cached_suggested_params_timeout))) :=
  ⟨⟨by decide, by decide, by decide⟩,
    C4_amended_seed_until AlgorandClient.init 1 2 3 100 5 50 100 (by decide) (by decide)
      (by decide)⟩

/-- C9: `set_suggested_params` honors the supplied expiry only when it is
truthy: with `until = 0` or `until` omitted the stored expiry is
`now + timeout`, and with any nonzero `until = u` it is `u`. -/
theorem C9_until_zero_falls_back {S : Type u} {P : Type v} (c : AlgorandClient S P) (p : P)
    (now u : Int) (hu : u ≠ 0) :
    ((c.set_suggested_params p (some 0) now).cached_suggested_params_expiry =
      some (now + c.cached_suggested_params_timeout)) ∧
    ((c.set_suggested_params p none now).cached_suggested_params_expiry =
      some (now + c.cached_suggested_params_timeout)) ∧
    ((c.set_suggested_params p (some u) now).cached_suggested_params_expiry = some u) := by
  refine ⟨by simp [AlgorandClient.set_suggested_params], by
    simp [AlgorandClient.set_suggested_params], ?_⟩
  simp [AlgorandClient.set_suggested_params, hu]

/-- C9 witness: fresh client, snapshot `3`, seed time `5`, nonzero expiry `7`. -/
theorem C9_until_zero_falls_back_witness :
    ((7 : Int) ≠ 0) ∧
    ((((AlgorandClient.init : AlgorandClient Unit Int).set_suggested_params 3 (some 0)
        5).cached_suggested_params_expiry =
      some (5 + (AlgorandClient.init : AlgorandClient Unit Int).cached_suggested_params_timeout)) ∧
    (((AlgorandClient.init : AlgorandClient Unit Int).set_suggested_params 3 none
        5).cached_suggested_params_expiry =
      some (5 + (AlgorandClient.init : AlgorandClient Unit Int).cached_suggested_params_timeout)) ∧
    (((AlgorandClient.init : AlgorandClient Unit Int).set_suggested_params 3 (some 7)
        5).cached_suggested_params_expiry = some 7)) :=
  ⟨by decide, C9_until_zero_falls_back AlgorandClient.init 3 5 7 (by decide)⟩

/-- C10: the cache timeout starts as the integer `3_000`; an automatic refresh
writes expiry `now + timeout` with the timeout added directly to the clock
value (seconds in the source), and after `set_suggested_params_timeout v` a
refresh writes `now + v`, so the default lifetime is `3000` clock seconds. -/
theorem C10_timeout_added_unconverted {S : Type u} {P : Type v} (c : AlgorandClient S P)
    (t v : Int) (f g : P) (hempty : c.cached_suggested_params = none) :
    ((AlgorandClient.init : AlgorandClient S P).cached_suggested_params_timeout = 3000) ∧
    (((AlgorandClient.init : AlgorandClient S P).get_suggested_params t
        f).2.1.cached_suggested_params_expiry = some (t + 3000)) ∧
    (((c.set_suggested_params_timeout v).get_suggested_params t
        g).2.1.cached_suggested_params_expiry = some (t + v)) := by
  refine ⟨rfl, by simp [AlgorandClient.get_suggested_params, AlgorandClient.init], ?_⟩
  simp [AlgorandClient.get_suggested_params, AlgorandClient.set_suggested_params_timeout, hempty]

/-- C10 witness: fresh client, refreshes at time `2` with fetched snapshots
`0`, after setting the timeout to `60`. -/
theorem C10_timeout_added_unconverted_witness :
    ((AlgorandClient.init : AlgorandClient Unit Int).cached_suggested_params = none) ∧
    (((AlgorandClient.init : AlgorandClient Unit Int).cached_suggested_params_timeout = 3000) ∧
    (((AlgorandClient.init : AlgorandClient Unit Int).get_suggested_params 2
        0).2.1.cached_suggested_params_expiry = some (2 + 3000)) ∧
    ((((AlgorandClient.init : AlgorandClient Unit Int).set_suggested_params_timeout
        60).get_suggested_params 2 0).2.1.cached_suggested_params_expiry = some (2 + 60))) :=
  ⟨rfl, C10_timeout_added_unconverted AlgorandClient.init 2 60 0 0 rfl⟩

/-- The ten operation kinds of the dispatch facade
(`AlgorandClientSendMethods` / `AlgorandClientTransactionMethods` fields). -/
inductive OpKind where
  | payment
  | asset_create
  | asset_config
  | asset_freeze
  | asset_destroy
  | asset_transfer
  | app_call
  | online_key_reg
  | method_call
  | asset_opt_in
deriving DecidableEq, Repr

/-- Calls the facade can make against the external ledger client. -/
inductive LedgerCall where
  | fetch_params
  | submit
  | wait_confirm (txId : String)
deriving DecidableEq, Repr

/-- A built transaction paired with its signer, as produced by the composer's
`build_group`. -/
structure TxnWithSigner (Txn : Type u) (Sig : Type v) where
  txn : Txn
  signer : Sig

/-- The response of the composer's `execute`
(`algosdk` `AtomicTransactionResponse`): the list of transaction ids of the
submitted group, in group order. -/
structure AtomicTransactionResponse where
  tx_ids : List String

/-- Environment of external behaviour the composer depends on: how each typed
parameter record (identified by a `Nat` payload) expands into built
transactions — exactly one for every kind except `method_call`, whose group
may expand into several — plus transaction ids, signer resolution and the
ledger's confirmation records. -/
structure ComposerEnv (Txn : Type u) (Sig : Type v) (Conf : Type w) where
  single_txn : OpKind → Nat → Txn
  method_txns : Nat → List Txn
  tx_id : Txn → String
  signer_of : Txn → Sig
  confirm : String → Conf

/-- Modelled from the spec: the external transaction-group composer
(`AlgokitComposer`, `composer.py`, not under `src/`).  It "accumulates typed
operation parameters into an ordered transaction group"; the facade adds
exactly one record per call. -/
structure AlgokitComposer where
  ops : List (OpKind × Nat)

/-- `AlgorandClient.new_group` (lines 141-148): a fresh composer with no
records (its bindings to the signer resolver, params provider and validity
window live in `ComposerEnv`). -/
def new_group : AlgokitComposer :=
  { ops := [] }

/-- The composer's `add_<operation>` methods: append the one typed record and
return the composer for chaining. -/
def AlgokitComposer.add (c : AlgokitComposer) (k : OpKind) (p : Nat) : AlgokitComposer :=
  { ops := c.ops ++ [(k, p)] }

def flat_map {α : Type u} {β : Type v} (f : α → List β) : List α → List β
  | [] => []
  | a :: rest => f a ++ flat_map f rest

/-- The built transactions of one typed record: a `method_call` record may
expand into several transactions, every other kind into exactly one. -/
def op_txns {Txn : Type u} {Sig : Type v} {Conf : Type w} (env : ComposerEnv Txn Sig Conf) :
    OpKind × Nat → List Txn
  | (OpKind.method_call, p) => env.method_txns p
  | (k, p) => [env.single_txn k p]

/-- Modelled from the spec: the external composer's `buildGroup` returns the
"ordered sequence of {transaction, signer}" assembled from the added records,
"builds without submitting"; the second component is the trace of ledger calls
(the params fetch for building, never a submission). -/
def AlgokitComposer.build_group {Txn : Type u} {Sig : Type v} {Conf : Type w}
    (c : AlgokitComposer) (env : ComposerEnv Txn Sig Conf) :
    List (TxnWithSigner Txn Sig) × List LedgerCall :=
  ((flat_map (op_txns env) c.ops).map (fun t => { txn := t, signer := env.signer_of t }),
    [LedgerCall.fetch_params])

/-- Modelled from the spec: the external composer's `execute` signs and
submits the group and returns `{transactionIds}`; its trace holds the params
fetch and the submission. -/
def AlgokitComposer.execute {Txn : Type u} {Sig : Type v} {Conf : Type w}
    (c : AlgokitComposer) (env : ComposerEnv Txn Sig Conf) :
    AtomicTransactionResponse × List LedgerCall :=
  ({ tx_ids := (flat_map (op_txns env) c.ops).map env.tx_id },
    [LedgerCall.fetch_params, LedgerCall.submit])

/-- The record returned by the send surface: `{"confirmation": ..., "tx_id": ...}`. -/
structure SendResult (Conf : Type w) where
  confirmation : Conf
  tx_id : String

/-- `AlgorandClient._unwrap_single_send_result` (lines 60-64): reads
`results.tx_ids[0]` (an index error on an empty list, hence `none`) and waits
for that same id's confirmation. -/
def unwrap_single_send_result {Txn : Type u} {Sig : Type v} {Conf : Type w}
    (env : ComposerEnv Txn Sig Conf) (results : AtomicTransactionResponse) :
    Option (SendResult Conf) :=
  match results.tx_ids with
  | [] => none
  | t :: _ => some { confirmation := env.confirm t, tx_id := t }

/-- The send surface (lines 150-164): each operation opens a fresh group, adds
its one record, executes, and unwraps; the trace extends the execute trace
with the confirmation wait on the first id. -/
def send_op {Txn : Type u} {Sig : Type v} {Conf : Type w} (env : ComposerEnv Txn Sig Conf)
    (k : OpKind) (p : Nat) : Option (SendResult Conf) × List LedgerCall :=
  let r := (new_group.add k p).execute env
  (unwrap_single_send_result env r.1,
    r.2 ++ (match r.1.tx_ids with
      | [] => []
      | t :: _ => [LedgerCall.wait_confirm t]))

/-- The build-only surface (lines 166-181): each operation opens a fresh
group, adds its one record and builds without executing; every kind but
`method_call` projects `build_group()[0].txn` (a single transaction, `none` on
an empty group), while `method_call` returns the whole ordered list of built
transactions. -/
def transactions_op {Txn : Type u} {Sig : Type v} {Conf : Type w}
    (env : ComposerEnv Txn Sig Conf) (k : OpKind) (p : Nat) :
    Option (Txn ⊕ List Txn) × List LedgerCall :=
  let r := (new_group.add k p).build_group env
  (match k with
    | OpKind.method_call => some (Sum.inr (r.1.map (fun t => t.txn)))
    | _ => (r.1.head?).map (fun t => Sum.inl t.txn),
    r.2)

/-- A concrete composer environment for evaluating the facade: transactions
are naturals, a method-call record `p` expands into the two transactions
`p` and `p + 1`. -/
def cenv : ComposerEnv Nat Unit String :=
  { single_txn := fun _ p => p
    method_txns := fun p => [p, p + 1]
    tx_id := fun t => toString t
    signer_of := fun _ => ()
    confirm := fun s => s ++ "-confirmed" }

/-- C5: every send operation executes a fresh one-record group and returns the
record whose `tx_id` is the id of the first transaction of the executed group
and whose `confirmation` is the confirmation fetched for that same first id —
also when the group holds several transactions, as a method call's may. -/
theorem C5_send_returns_first_txn {Txn : Type u} {Sig : Type v} {Conf : Type w}
    (env : ComposerEnv Txn Sig Conf) (k : OpKind) (p : Nat)
    (h : op_txns env (k, p) ≠ []) :
    ∃ t rest, op_txns env (k, p) = t :: rest ∧
      ((new_group.add k p).execute env).1.tx_ids = env.tx_id t :: rest.map env.tx_id ∧
      (send_op env k p).1 =
        some { confirmation := env.confirm (env.tx_id t), tx_id := env.tx_id t } := by
  cases hc : op_txns env (k, p) with
  | nil => exact absurd hc h
  | cons t rest =>
      refine ⟨t, rest, rfl, ?_, ?_⟩
      · simp [AlgokitComposer.execute, new_group, AlgokitComposer.add, flat_map, hc]
      · simp [send_op, AlgokitComposer.execute, new_group, AlgokitComposer.add, flat_map, hc,
          unwrap_single_send_result]

/-- C5 witness: a concrete method-call send whose executed group holds the two
transactions `0` and `1`; the returned record reports the first id `"0"` and
its confirmation. -/
theorem C5_send_returns_first_txn_witness :
    (op_txns cenv (OpKind.method_call, 0) ≠ []) ∧
    (∃ t rest, op_txns cenv (OpKind.method_call, 0) = t :: rest ∧
      ((new_group.add OpKind.method_call 0).execute cenv).1.tx_ids =
        cenv.tx_id t :: rest.map cenv.tx_id ∧
      (send_op cenv OpKind.method_call 0).1 =
        some { confirmation := cenv.confirm (cenv.tx_id t), tx_id := cenv.tx_id t }) :=
  ⟨by simp [op_txns, cenv], C5_send_returns_first_txn cenv OpKind.method_call 0
    (by simp [op_txns, cenv])⟩

/-- C6: every build-only operation makes no call to the ledger's submission
endpoint (its trace holds only the build-time params fetch, so no ledger state
changes); every kind other than `method_call` returns the single built
transaction of its group, and `method_call` returns the ordered list of built
transactions of its group. -/
theorem C6_transactions_build_only {Txn : Type u} {Sig : Type v} {Conf : Type w}
    (env : ComposerEnv Txn Sig Conf) (k : OpKind) (p q : Nat)
    (hk : k ≠ OpKind.method_call) :
    (∀ (k2 : OpKind) (p2 : Nat), LedgerCall.submit ∉ (transactions_op env k2 p2).2) ∧
    ((transactions_op env k p).1 = some (Sum.inl (env.single_txn k p))) ∧
    ((transactions_op env OpKind.method_call q).1 = some (Sum.inr (env.method_txns q))) := by
  refine ⟨?_, ?_, ?_⟩
  · intro k2 p2
    simp [transactions_op, AlgokitComposer.build_group]
  · cases k
    case method_call => exact absurd rfl hk
    all_goals
      simp [transactions_op, AlgokitComposer.build_group, new_group, AlgokitComposer.add,
        flat_map, op_txns]
  · simp [transactions_op, AlgokitComposer.build_group, new_group, AlgokitComposer.add,
      flat_map, op_txns]
    exact List.map_id _

/-- C6 witness: concrete build-only payment (one transaction, no submit) and
method call (the full list `[0, 1]`). -/
theorem C6_transactions_build_only_witness :
    (OpKind.payment ≠ OpKind.method_call) ∧
    ((∀ (k2 : OpKind) (p2 : Nat), LedgerCall.submit ∉ (transactions_op cenv k2 p2).2) ∧
    ((transactions_op cenv OpKind.payment 5).1 =
      some (Sum.inl (cenv.single_txn OpKind.payment 5))) ∧
    ((transactions_op cenv OpKind.method_call 0).1 = some (Sum.inr (cenv.method_txns 0)))) :=
  ⟨by decide, C6_transactions_build_only cenv OpKind.payment 5 0 (by decide)⟩

/-- An account held in a KMD wallet: its address, its signer, and the
status/balance summary `info` the selection predicate inspects. -/
structure KmdAccount (S : Type u) (I : Type v) where
  address : String
  signer : S
  info : I

/-- Modelled from the spec: the external helper `get_kmd_wallet_account`
(`algokit_utils.account`, not under `src/`).  It "queries the named wallet via
the external key-management API for its account list, applies `predicate` (a
boolean function over an account's status/balance summary) to select one
candidate when given, else picks arbitrarily from the wallet" (here: the first
account), and yields no account "if the wallet is empty or no candidate
satisfies `predicate`" (or the wallet is missing).  The key-management
service's wallets are the explicit argument `wallets`. -/
def get_kmd_wallet_account {S : Type u} {I : Type v}
    (wallets : List (String × List (KmdAccount S I))) (name : String)
    (predicate : Option (I → Bool)) : Option (KmdAccount S I) :=
  match dictGet name wallets with
  | none => none
  | some accts =>
      match predicate with
      | some p => accts.find? (fun a => p a.info)
      | none => accts.head?

/-- `AccountManager.from_kmd` (`account_manager.py` lines 103-129): looks up
the wallet account, raises when the lookup yields nothing (`if not account`;
a returned account object is truthy), otherwise registers the account's
signer and returns the pair. -/
def AccountManager.from_kmd {S : Type u} {I : Type v} (m : AccountManager S)
    (wallets : List (String × List (KmdAccount S I))) (name : String)
    (predicate : Option (I → Bool)) : Except String (AddrAndSigner S × AccountManager S) :=
  match get_kmd_wallet_account wallets name predicate with
  | none => Except.error ("Unable to find KMD account " ++ name ++
      (match predicate with
       | some _ => " with predicate"
       | none => ""))
  | some account =>
      Except.ok ({ addr := account.address, signer := account.signer },
        m.set_signer account.address account.signer)

/-- An acquired external account: address plus loaded signer, as returned by
`get_dispenser_account` / `get_localnet_default_account`. -/
structure SimpleAccount (S : Type u) where
  address : String
  signer : S

/-- `AccountManager.random` (lines 154-168): `generate_account()` is external
entropy, so its output `(sk, addr)` and the `AccountTransactionSigner`
constructor `mk_signer` are passed in; the built signer is registered for
`addr` and the pair is returned. -/
def AccountManager.random {S : Type u} (m : AccountManager S) (mk_signer : String → S)
    (sk addr : String) : AddrAndSigner S × AccountManager S :=
  let signer := mk_signer sk
  ({ addr := addr, signer := signer }, m.set_signer addr signer)

/-- `AccountManager.dispenser` (lines 170-186): the account obtained from the
external `get_dispenser_account` is registered and returned. -/
def AccountManager.dispenser {S : Type u} (m : AccountManager S) (acct : SimpleAccount S) :
    AddrAndSigner S × AccountManager S :=
  ({ addr := acct.address, signer := acct.signer }, m.set_signer acct.address acct.signer)

/-- `AccountManager.localnet_dispenser` (lines 188-199): the account obtained
from the external `get_localnet_default_account` is registered and returned. -/
def AccountManager.localnet_dispenser {S : Type u} (m : AccountManager S)
    (acct : SimpleAccount S) : AddrAndSigner S × AccountManager S :=
  ({ addr := acct.address, signer := acct.signer }, m.set_signer acct.address acct.signer)

/-- C7: `from_kmd` raises exactly when the wallet lookup selects no account —
the wallet is missing, or it exists and the selection comes up empty (for a
predicate: every account's summary is rejected, which subsumes the empty
wallet; without one: the wallet is empty); and a successfully returned
account was selected by `find?`, so when a predicate is supplied the returned
pair is a wallet account whose summary satisfies it. -/
theorem get_kmd_wallet_account_eq_none_iff {S : Type u} {I : Type v}
    (wallets : List (String × List (KmdAccount S I))) (name : String)
    (predicate : Option (I → Bool)) :
    get_kmd_wallet_account wallets name predicate = none ↔
      (dictGet name wallets = none ∨
        ∃ accts, dictGet name wallets = some accts ∧
          (match predicate with
           | some sel => ∀ a ∈ accts, sel a.info = false
           | none => accts = [])) := by
  unfold get_kmd_wallet_account
  cases hw : dictGet name wallets with
  | none => simp
  | some accts =>
      cases predicate with
      | none => simp [List.head?_eq_none_iff]
      | some sel => simp [List.find?_eq_none]

theorem from_kmd_error_iff {S : Type u} {I : Type v} (m : AccountManager S)
    (wallets : List (String × List (KmdAccount S I))) (name : String)
    (predicate : Option (I → Bool)) :
    (∃ e, m.from_kmd wallets name predicate = Except.error e) ↔
      get_kmd_wallet_account wallets name predicate = none := by
  unfold AccountManager.from_kmd
  cases hg : get_kmd_wallet_account wallets name predicate <;> simp

theorem C7_from_kmd_not_found {S : Type u} {I : Type v} (m : AccountManager S)
    (wallets : List (String × List (KmdAccount S I))) (name : String)
    (predicate : Option (I → Bool)) (p : I → Bool) (pair : AddrAndSigner S)
    (m2 : AccountManager S)
    (hok : m.from_kmd wallets name (some p) = Except.ok (pair, m2)) :
    ((∃ e, m.from_kmd wallets name predicate = Except.error e) ↔
      (dictGet name wallets = none ∨
        ∃ accts, dictGet name wallets = some accts ∧
          (match predicate with
           | some sel => ∀ a ∈ accts, sel a.info = false
           | none => accts = []))) ∧
    (∃ a, get_kmd_wallet_account wallets name (some p) = some a ∧ p a.info = true ∧
      pair = { addr := a.address, signer := a.signer }) := by
  constructor
  · rw [from_kmd_error_iff]
    exact get_kmd_wallet_account_eq_none_iff wallets name predicate
  · cases hg : get_kmd_wallet_account wallets name (some p) with
    | none => simp [AccountManager.from_kmd, hg] at hok
    | some a =>
        refine ⟨a, rfl, ?_, ?_⟩
        · have hfind : ∃ accts, dictGet name wallets = some accts ∧
              accts.find? (fun x => p x.info) = some a := by
            revert hg
            unfold get_kmd_wallet_account
            cases hw : dictGet name wallets with
            | none => intro h; exact absurd h (by simp)
            | some accts => intro h; exact ⟨accts, rfl, h⟩
          obtain ⟨accts, _, hf⟩ := hfind
          simpa using List.find?_some hf
        · simp only [AccountManager.from_kmd, hg, Except.ok.injEq, Prod.mk.injEq] at hok
          exact hok.1.symm

/-- A concrete KMD wallet table for the witnesses: one wallet `"W"` with two
accounts whose balance summaries are `5` and `20`. -/
def wallets0 : List (String × List (KmdAccount Nat Nat)) :=
  [("W", [{ address := "a1", signer := 11, info := 5 },
          { address := "a2", signer := 12, info := 20 }])]

/-- The concrete selection predicate of the witnesses: balance above `10`. -/
def balance_above_10 : Nat → Bool := fun n => decide (10 < n)

/-- C7 witness: on `wallets0` the predicate `balance_above_10` selects the
account `a2` with balance `20`; the success hypothesis is discharged by
evaluation, and the missing-wallet side of the equivalence is exercised at
wallet name `"W"` with that predicate. -/
theorem C7_from_kmd_not_found_witness :
    (AccountManager.init.from_kmd wallets0 "W" (some balance_above_10) =
      Except.ok ({ addr := "a2", signer := 12 },
        AccountManager.init.set_signer "a2" 12)) ∧
    (((∃ e, AccountManager.init.from_kmd wallets0 "W" (some balance_above_10) =
        Except.error e) ↔
      (dictGet "W" wallets0 = none ∨
        ∃ accts, dictGet "W" wallets0 = some accts ∧
          (match some balance_above_10 with
           | some sel => ∀ a ∈ accts, sel a.info = false
           | none => accts = []))) ∧
    (∃ a, get_kmd_wallet_account wallets0 "W" (some balance_above_10) = some a ∧
      balance_above_10 a.info = true ∧
      ({ addr := "a2", signer := 12 } : AddrAndSigner Nat) =
        { addr := a.address, signer := a.signer })) :=
  ⟨rfl, C7_from_kmd_not_found AccountManager.init wallets0 "W" (some balance_above_10)
    balance_above_10 { addr := "a2", signer := 12 }
    (AccountManager.init.set_signer "a2" 12) rfl⟩

/-- C8: each provisioning operation that returns successfully registers the
acquired signer as a side effect and returns exactly the acquired
(address, signer) pair: afterwards `get_signer` on the returned address yields
the returned signer.  For `random` the acquired pair is
`(addr, mk_signer sk)`, for the dispenser operations it is the externally
obtained account, and for `from_kmd` it is the selected wallet account. -/
theorem C8_provisioning_registers {S : Type u} {I : Type v} (m : AccountManager S)
    (mk_signer : String → S) (sk addr : String) (acct acct2 : SimpleAccount S)
    (wallets : List (String × List (KmdAccount S I))) (name : String)
    (predicate : Option (I → Bool)) (pair : AddrAndSigner S) (m2 : AccountManager S)
    (hok : m.from_kmd wallets name predicate = Except.ok (pair, m2)) :
    ((m.random mk_signer sk addr).2.get_signer (m.random mk_signer sk addr).1.addr =
        Except.ok (m.random mk_signer sk addr).1.signer ∧
      (m.random mk_signer sk addr).1 = { addr := addr, signer := mk_signer sk }) ∧
    ((m.dispenser acct).2.get_signer (m.dispenser acct).1.addr =
        Except.ok (m.dispenser acct).1.signer ∧
      (m.dispenser acct).1 = { addr := acct.address, signer := acct.signer }) ∧
    ((m.localnet_dispenser acct2).2.get_signer (m.localnet_dispenser acct2).1.addr =
        Except.ok (m.localnet_dispenser acct2).1.signer ∧
      (m.localnet_dispenser acct2).1 = { addr := acct2.address, signer := acct2.signer }) ∧
    (m2.get_signer pair.addr = Except.ok pair.signer ∧
      ∃ a, get_kmd_wallet_account wallets name predicate = some a ∧
        pair = { addr := a.address, signer := a.signer }) := by
  refine ⟨⟨get_signer_set_signer m addr (mk_signer sk), rfl⟩,
    ⟨get_signer_set_signer m acct.address acct.signer, rfl⟩,
    ⟨get_signer_set_signer m acct2.address acct2.signer, rfl⟩, ?_⟩
  cases hg : get_kmd_wallet_account wallets name predicate with
  | none => simp [AccountManager.from_kmd, hg] at hok
  | some a =>
      simp only [AccountManager.from_kmd, hg, Except.ok.injEq, Prod.mk.injEq] at hok
      obtain ⟨hpair, hm2⟩ := hok
      subst hpair
      subst hm2
      exact ⟨get_signer_set_signer m a.address a.signer, a, rfl, rfl⟩

/-- C8 witness: random account `("R", signer 7)`, dispenser accounts `"D"`
and `"L"`, and a `from_kmd` success on the concrete wallet table selecting
account `a2`. -/
theorem C8_provisioning_registers_witness :
    (AccountManager.init.from_kmd wallets0 "W" (some balance_above_10) =
      Except.ok ({ addr := "a2", signer := 12 },
        AccountManager.init.set_signer "a2" 12)) ∧
    (((AccountManager.init.random (fun _ => (7 : Nat)) "sk" "R").2.get_signer
        (AccountManager.init.random (fun _ => (7 : Nat)) "sk" "R").1.addr =
        Except.ok (AccountManager.init.random (fun _ => (7 : Nat)) "sk" "R").1.signer ∧
      (AccountManager.init.random (fun _ => (7 : Nat)) "sk" "R").1 =
        { addr := "R", signer := 7 }) ∧
    ((AccountManager.init.dispenser { address := "D", signer := 8 }).2.get_signer
        (AccountManager.init.dispenser { address := "D", signer := 8 }).1.addr =
        Except.ok (AccountManager.init.dispenser { address := "D", signer := 8 }).1.signer ∧
      (AccountManager.init.dispenser { address := "D", signer := (8 : Nat) }).1 =
        { addr := "D", signer := 8 }) ∧
    ((AccountManager.init.localnet_dispenser { address := "L", signer := 9 }).2.get_signer
        (AccountManager.init.localnet_dispenser { address := "L", signer := 9 }).1.addr =
        Except.ok
          (AccountManager.init.localnet_dispenser { address := "L", signer := 9 }).1.signer ∧
      (AccountManager.init.localnet_dispenser { address := "L", signer := (9 : Nat) }).1 =
        { addr := "L", signer := 9 }) ∧
    ((AccountManager.init.set_signer "a2" 12).get_signer
        (AddrAndSigner.addr { addr := "a2", signer := (12 : Nat) }) =
        Except.ok (AddrAndSigner.signer { addr := "a2", signer := (12 : Nat) }) ∧
      ∃ a, get_kmd_wallet_account wallets0 "W" (some balance_above_10) = some a ∧
        ({ addr := "a2", signer := 12 } : AddrAndSigner Nat) =
          { addr := a.address, signer := a.signer })) :=
  ⟨rfl, C8_provisioning_registers AccountManager.init (fun _ => 7) "sk" "R"
    { address := "D", signer := 8 } { address := "L", signer := 9 } wallets0 "W"
    (some balance_above_10) { addr := "a2", signer := 12 }
    (AccountManager.init.set_signer "a2" 12) rfl⟩
